import Mathlib

/-
Verification of the BscPulse price-monitoring core (src/src/services/PriceMonitor.js,
src/src/services/MempoolMonitor.js, src/src/config/tokens.config.js).

Modelling conventions:
- JavaScript numbers are modelled as exact rationals. The properties settled here
  are arithmetic-structural (filter membership, branch selection, list shape), so
  the exact-arithmetic reading is the intended one; float rounding is out of scope.
- The filter condition of removeOutliers is written in squared form:
  the source computes stdDev = sqrt(variance) and keeps p when
  abs (p - mean) <= 2 * stdDev, which over the nonnegative reals is equivalent to
  (p - mean)^2 <= 4 * variance. The theorem about it restates the bound with
  Real.sqrt, exactly as the source writes it.
- JavaScript Maps keyed by strings are association lists; Map.get is List.lookup,
  Map.delete is a filter on the key.
- BigInt amounts are integers; addresses and symbols are strings.
-/

namespace BscPulse

/-- JavaScript String.prototype.toLowerCase restricted to the character-wise
(ASCII-sufficient) case used on hex addresses: lower every character. Defined
on the character list so the kernel can evaluate it. -/
def lowerStr (s : String) : String := String.mk (s.data.map Char.toLower)

/-- JavaScript String.prototype.startsWith: prefix test on the character
list. -/
def strStartsWith (s pre : String) : Bool := pre.data.isPrefixOf s.data

/-! Outlier rejection: PriceMonitor.js, removeOutliers (lines 339-355). -/

/-- Mean of a price list: prices.reduce((sum, p) => sum + p, 0) / prices.length
(PriceMonitor.js line 343). -/
def priceMean (prices : List ℚ) : ℚ := prices.sum / (prices.length : ℚ)

/-- Population variance: squaredDiffs.reduce(..) / prices.length
(PriceMonitor.js lines 344-345). -/
def priceVariance (prices : List ℚ) : ℚ :=
  ((prices.map (fun p => (p - priceMean prices) ^ 2)).sum) / (prices.length : ℚ)

/-- The retain condition of removeOutliers (PriceMonitor.js line 349):
abs (p - mean) <= 2 * sqrt (variance), written in the equivalent squared form so
it stays inside ℚ. -/
def outlierKeep (prices : List ℚ) (p : ℚ) : Bool :=
  decide ((p - priceMean prices) ^ 2 ≤ 4 * priceVariance prices)

/-- PriceMonitor.js removeOutliers (lines 339-355): sequences of length at most 2
pass through; otherwise filter to within two standard deviations of the mean, and
fall back to the original list when the filter empties. -/
def removeOutliers (prices : List ℚ) : List ℚ :=
  if prices.length ≤ 2 then prices
  else if prices.filter (outlierKeep prices) = [] then prices
  else prices.filter (outlierKeep prices)

/-! V3 swap classification: PriceMonitor.js, parseV3SwapInfo (lines 1629-1657).
The raw signed amounts and the buy flag are modelled; formatAmount only renders
these magnitudes as display strings (divide by 10^decimals and format), which is
locale string formatting and is not modelled. -/

structure SwapInfoRaw where
  isBuy : Bool
  tokenAmountRaw : ℤ
  pairAmountRaw : ℤ
  deriving DecidableEq, Repr

/-- PriceMonitor.js parseV3SwapInfo (lines 1629-1657): amounts are signed
(negative = leaving the pool); the monitored side decides the direction and both
sides are reported by magnitude. -/
def parseV3SwapInfo (amount0 amount1 : ℤ) (isToken0 : Bool) : SwapInfoRaw :=
  if isToken0 then
    { isBuy := decide (amount0 < 0)
      tokenAmountRaw := if amount0 < 0 then -amount0 else amount0
      pairAmountRaw := if amount1 < 0 then -amount1 else amount1 }
  else
    { isBuy := decide (amount1 < 0)
      tokenAmountRaw := if amount1 < 0 then -amount1 else amount1
      pairAmountRaw := if amount0 < 0 then -amount0 else amount0 }

/-! Broadcast fan-out: PriceMonitor.js, broadcastPrice (lines 1928-1941). The
payload `update` (priceData plus its formatted rendering) is built once and then
emitted twice; the payload type is a parameter, the construction of the formatted
strings (toFixed rendering) is not modelled. -/

inductive EmitTarget where
  | room (name : String)
  | global
  deriving DecidableEq, Repr

structure Emission (α : Type) where
  target : EmitTarget
  eventName : String
  payload : α
  deriving DecidableEq, Repr

/-- PriceMonitor.js broadcastPrice (lines 1928-1941): emit the update to the
room `token:` ++ lowercase address as price-update, then the same update to every
connected session as global-price-update (io.emit). -/
def broadcastPrice {α : Type} (tokenAddress : String) (update : α) :
    List (Emission α) :=
  [ { target := .room ("token:" ++ lowerStr tokenAddress), eventName := "price-update",
      payload := update },
    { target := .global, eventName := "global-price-update", payload := update } ]

/-! Threshold-gated price update: PriceMonitor.js, handlePriceUpdate
(lines 1672-1755), past the 100 ms coalescing guard (lines 1679-1681).
tokens.config.js line 34 fixes the default threshold. -/

/-- tokens.config.js line 34: priceUpdateThreshold = 0.001. -/
def priceUpdateThreshold : ℚ := 1 / 1000

structure PriceUpdateOutcome where
  cachedPriceUSD : ℚ
  broadcast : Bool
  lastPriceAfter : Option ℚ
  emissions : List (Emission ℚ)
  deriving DecidableEq, Repr

/-- PriceMonitor.js handlePriceUpdate (lines 1698-1749), restricted to the
price-cache write, the broadcast decision and the lastPrice update:
oldPrice = tokenData.lastPrice?.priceUSD || 0 (line 1704),
priceChange = oldPrice > 0 ? (new - old) / old : 0 (line 1705),
cache set unconditionally (line 1701), broadcast and lastPrice assignment iff
abs priceChange >= threshold or oldPrice = 0 (lines 1743-1747). -/
def handlePriceUpdate (tokenAddress : String) (threshold : ℚ)
    (lastPriceUSD : Option ℚ) (newPriceUSD : ℚ) : PriceUpdateOutcome :=
  let oldPrice : ℚ := lastPriceUSD.getD 0
  let priceChange : ℚ := if 0 < oldPrice then (newPriceUSD - oldPrice) / oldPrice else 0
  let doBroadcast : Bool := decide (threshold ≤ |priceChange|) || decide (oldPrice = 0)
  { cachedPriceUSD := newPriceUSD
    broadcast := doBroadcast
    lastPriceAfter := if doBroadcast then some newPriceUSD else lastPriceUSD
    emissions := if doBroadcast then broadcastPrice tokenAddress newPriceUSD else [] }

/-! Agent-token pricing: PriceMonitor.js, calculateAgentTokenPrice (lines
252-298) and getAgentTokenPrice (lines 300-335). The on-chain pool reads
(getV2PoolPrice / getV3PoolPrice) are an oracle parameter `poolPrice`, the
agent registry (config.agentTokens) and the fresh part of the TTL cache
(agentTokenPrices entries whose age is below agentPriceCacheTTL) are explicit
state; the cache write-back (lines 326-332) and logging are not modelled.
The two JavaScript functions are mutually recursive; `getAgentTokenPriceGo`
is their fusion (getAgentTokenPrice with calculateAgentTokenPrice inlined at
its call site), which Lean can prove terminating; `getAgentTokenPrice` and
`calculateAgentTokenPrice` below keep the shape of the source functions and
`getAgentTokenPrice_unfold` certifies that the fusion is exact. -/

structure AgentSource where
  address : String
  type : String
  pair : String
  pairAddress : String
  deriving DecidableEq, Repr

structure AgentConfig where
  symbol : String
  priceSources : List AgentSource
  deriving DecidableEq, Repr

structure AgentEnv where
  agentTokens : List (String × AgentConfig)
  agentPriceCache : List (String × ℚ)
  bnbPrice : ℚ
  poolPrice : String → String → ℚ

/-- The keys of the agent registry (config.agentTokens is keyed by lowercase
address). -/
def agentKeys (env : AgentEnv) : List String := env.agentTokens.map Prod.fst

/-- Every pairAddress string reachable from the agent registry: past the first
frame, each recursive call of the source receives one of these. -/
def agentPairAddrs (env : AgentEnv) : List String :=
  (env.agentTokens.map (fun kc => kc.2.priceSources.map (fun s => s.pairAddress))).flatten

/-- Termination measure for the agent recursion: registry keys not yet on the
lowered call stack, plus reachable pairAddress strings not yet on the raw call
stack (the source checks cycle membership on raw strings but looks configs up
by lowercase key, so both components are needed), plus one spare unit for a
top-level address that is not itself a reachable pairAddress. -/
def agentMeasure (env : AgentEnv) (addr : String) (callStack : List String) : ℕ :=
  2 * (((agentKeys env).toFinset \ ((callStack.map lowerStr).toFinset)).card +
       ((agentPairAddrs env).toFinset \ callStack.toFinset).card) +
  (if addr ∈ agentPairAddrs env then 0 else 1)

theorem lookup_mem_keys {α β : Type} [BEq α] [LawfulBEq α] {l : List (α × β)}
    {k : α} {v : β} (h : l.lookup k = some v) : k ∈ l.map Prod.fst := by
  induction l with
  | nil => simp [List.lookup] at h
  | cons hd tl ih =>
    rw [List.lookup] at h
    rcases hbeq : k == hd.1 with _ | _
    · rw [hbeq] at h
      exact List.mem_cons_of_mem _ (ih h)
    · exact List.mem_cons.mpr (Or.inl (eq_of_beq hbeq))

theorem lookup_mem_values {α β : Type} [BEq α] [LawfulBEq α] {l : List (α × β)}
    {k : α} {v : β} (h : l.lookup k = some v) : v ∈ l.map Prod.snd := by
  induction l with
  | nil => simp [List.lookup] at h
  | cons hd tl ih =>
    rw [List.lookup] at h
    rcases hbeq : k == hd.1 with _ | _
    · rw [hbeq] at h
      exact List.mem_cons_of_mem _ (ih h)
    · rw [hbeq] at h
      simp only [Option.some.injEq] at h
      exact List.mem_cons.mpr (Or.inl h.symm)

theorem pairAddr_mem {env : AgentEnv} {k : String} {cfg : AgentConfig}
    (h : env.agentTokens.lookup k = some cfg) {src : AgentSource}
    (hsrc : src ∈ cfg.priceSources) : src.pairAddress ∈ agentPairAddrs env := by
  have hv : cfg ∈ env.agentTokens.map Prod.snd := lookup_mem_values h
  rcases List.mem_map.mp hv with ⟨kc, hkc, hEq⟩
  unfold agentPairAddrs
  rw [List.mem_flatten]
  refine ⟨kc.2.priceSources.map (fun s => s.pairAddress),
    List.mem_map_of_mem _ hkc, ?_⟩
  rw [hEq]
  exact List.mem_map_of_mem _ hsrc

theorem agentMeasure_decreases (env : AgentEnv) (a b : String) (s : List String)
    (ha : a ∉ s) (hk : lowerStr a ∈ agentKeys env) (hb : b ∈ agentPairAddrs env) :
    agentMeasure env b (s ++ [a]) < agentMeasure env a s := by
  unfold agentMeasure
  rw [if_pos hb]
  have hmaps : ((s ++ [a]).map lowerStr).toFinset =
      (s.map lowerStr).toFinset ∪ {lowerStr a} := by
    simp
  have hsets : (s ++ [a]).toFinset = s.toFinset ∪ {a} := by
    simp
  rw [hmaps, hsets]
  have hlole : (((agentKeys env).toFinset) \
        ((s.map lowerStr).toFinset ∪ {lowerStr a})).card ≤
      (((agentKeys env).toFinset) \ ((s.map lowerStr).toFinset)).card :=
    Finset.card_le_card
      (Finset.sdiff_subset_sdiff (Finset.Subset.refl _) Finset.subset_union_left)
  have hrawle : (((agentPairAddrs env).toFinset) \ (s.toFinset ∪ {a})).card ≤
      (((agentPairAddrs env).toFinset) \ s.toFinset).card :=
    Finset.card_le_card
      (Finset.sdiff_subset_sdiff (Finset.Subset.refl _) Finset.subset_union_left)
  by_cases haE : a ∈ agentPairAddrs env
  · have hstrict : (((agentPairAddrs env).toFinset) \ (s.toFinset ∪ {a})).card <
        (((agentPairAddrs env).toFinset) \ s.toFinset).card := by
      apply Finset.card_lt_card
      rw [Finset.ssubset_iff_of_subset
        (Finset.sdiff_subset_sdiff (Finset.Subset.refl _) Finset.subset_union_left)]
      refine ⟨a, Finset.mem_sdiff.mpr
        ⟨List.mem_toFinset.mpr haE, fun hc => ha (List.mem_toFinset.mp hc)⟩, ?_⟩
      simp
    rw [if_pos haE]
    omega
  · rw [if_neg haE]
    by_cases hal : lowerStr a ∈ (s.map lowerStr).toFinset
    · have hsame : (s.map lowerStr).toFinset ∪ {lowerStr a} =
          (s.map lowerStr).toFinset := by
        rw [Finset.union_eq_left]
        simpa using hal
      rw [hsame]
      omega
    · have hstrict : (((agentKeys env).toFinset) \
            ((s.map lowerStr).toFinset ∪ {lowerStr a})).card <
          (((agentKeys env).toFinset) \ ((s.map lowerStr).toFinset)).card := by
        apply Finset.card_lt_card
        rw [Finset.ssubset_iff_of_subset
          (Finset.sdiff_subset_sdiff (Finset.Subset.refl _) Finset.subset_union_left)]
        refine ⟨lowerStr a, Finset.mem_sdiff.mpr ⟨List.mem_toFinset.mpr hk, hal⟩, ?_⟩
        simp
      omega

/-- Fusion of PriceMonitor.js getAgentTokenPrice (lines 300-335) with
calculateAgentTokenPrice (lines 252-298) inlined at its call site (line 323):
null address returns 0 (line 301), an address already on the call stack
returns 0 (lines 304-307, the cycle guard), a fresh cache entry is returned
(lines 309-314), a missing registry entry returns 0 (lines 317-321); otherwise
each price source is read, converted through WBNB, the stables, or a recursive
agent lookup with the extended call stack (lines 262-291, only positive nested
prices multiply in, only positive converted prices are collected), and the
collected prices are outlier-filtered and averaged (lines 293-297). -/
def getAgentTokenPriceGo (env : AgentEnv) (agentAddress : String)
    (callStack : List String) : ℚ :=
  if agentAddress = "" then 0
  else if agentAddress ∈ callStack then 0
  else
    match env.agentPriceCache.lookup (lowerStr agentAddress) with
    | some cached => cached
    | none =>
      match hcfg : env.agentTokens.lookup (lowerStr agentAddress) with
      | none => 0
      | some agentConfig =>
        let prices := agentConfig.priceSources.attach.foldl (fun acc src =>
          let poolPrice := env.poolPrice src.1.address agentAddress
          let converted :=
            if src.1.pair = "WBNB" then poolPrice * env.bnbPrice
            else if src.1.pair = "USDC" ∨ src.1.pair = "USDT" ∨
                src.1.pair = "DAI" ∨ src.1.pair = "BUSD" then poolPrice
            else
              let nested :=
                getAgentTokenPriceGo env src.1.pairAddress (callStack ++ [agentAddress])
              if 0 < nested then poolPrice * nested else poolPrice
          if 0 < converted then acc ++ [converted] else acc) []
        if prices = [] then 0
        else (removeOutliers prices).sum / ((removeOutliers prices).length : ℚ)
termination_by agentMeasure env agentAddress callStack
decreasing_by
  have hnotin : agentAddress ∉ callStack := by assumption
  exact agentMeasure_decreases env agentAddress src.1.pairAddress callStack hnotin
    (lookup_mem_keys hcfg) (pairAddr_mem hcfg src.2)

/-- PriceMonitor.js getAgentTokenPrice (lines 300-335), via the terminating
fusion; getAgentTokenPrice_unfold below recovers the literal source shape. -/
def getAgentTokenPrice (env : AgentEnv) (agentAddress : String)
    (callStack : List String) : ℚ :=
  getAgentTokenPriceGo env agentAddress callStack

/-- The price-collection loop of calculateAgentTokenPrice (PriceMonitor.js
lines 260-291): for each source take the oracle pool price, convert by pair
kind (WBNB multiplies by the BNB reference, the four stables pass through,
anything else resolves the pair recursively with the extended call stack and
multiplies only a positive result in), and collect only positive prices. -/
def agentPriceSamples (env : AgentEnv) (agentAddress : String)
    (agentConfig : AgentConfig) (newCallStack : List String) : List ℚ :=
  agentConfig.priceSources.foldl (fun acc source =>
    let poolPrice := env.poolPrice source.address agentAddress
    let converted :=
      if source.pair = "WBNB" then poolPrice * env.bnbPrice
      else if source.pair = "USDC" ∨ source.pair = "USDT" ∨
          source.pair = "DAI" ∨ source.pair = "BUSD" then poolPrice
      else
        let nested := getAgentTokenPrice env source.pairAddress newCallStack
        if 0 < nested then poolPrice * nested else poolPrice
    if 0 < converted then acc ++ [converted] else acc) []

/-- PriceMonitor.js calculateAgentTokenPrice (lines 252-298): cycle guard
(lines 254-257), push the address onto the call stack (line 259), collect the
converted source prices, return 0 when none survive (line 293), otherwise
average the outlier-filtered collection (lines 296-297). -/
def calculateAgentTokenPrice (env : AgentEnv) (agentAddress : String)
    (agentConfig : AgentConfig) (callStack : List String) : ℚ :=
  if agentAddress ∈ callStack then 0
  else
    let prices := agentPriceSamples env agentAddress agentConfig (callStack ++ [agentAddress])
    if prices = [] then 0
    else (removeOutliers prices).sum / ((removeOutliers prices).length : ℚ)

theorem foldl_attach {α β : Type} (l : List α) (f : β → α → β) (init : β) :
    l.attach.foldl (fun acc x => f acc x.1) init = l.foldl f init := by
  induction l generalizing init with
  | nil => rfl
  | cons hd tl ih =>
    rw [List.attach_cons, List.foldl_cons, List.foldl_map, List.foldl_cons]
    exact ih (f init hd)

/-- The fusion is exact: getAgentTokenPrice has the literal shape of the
source function, with calculateAgentTokenPrice called for a registered,
uncached, non-cycling address. -/
theorem getAgentTokenPrice_unfold (env : AgentEnv) (agentAddress : String)
    (callStack : List String) :
    getAgentTokenPrice env agentAddress callStack =
      if agentAddress = "" then 0
      else if agentAddress ∈ callStack then 0
      else
        match env.agentPriceCache.lookup (lowerStr agentAddress) with
        | some cached => cached
        | none =>
          match env.agentTokens.lookup (lowerStr agentAddress) with
          | none => 0
          | some agentConfig =>
            calculateAgentTokenPrice env agentAddress agentConfig callStack := by
  rw [getAgentTokenPrice, getAgentTokenPriceGo]
  by_cases h0 : agentAddress = ""
  · rw [if_pos h0, if_pos h0]
  rw [if_neg h0, if_neg h0]
  by_cases hc : agentAddress ∈ callStack
  · rw [if_pos hc, if_pos hc]
  rw [if_neg hc, if_neg hc]
  cases hcache : env.agentPriceCache.lookup (lowerStr agentAddress) with
  | some cached => rfl
  | none =>
    cases hcfg : env.agentTokens.lookup (lowerStr agentAddress) with
    | none => rfl
    | some agentConfig =>
      dsimp only
      conv_rhs => rw [calculateAgentTokenPrice]
      rw [if_neg hc]
      conv_rhs => rw [agentPriceSamples, ← foldl_attach]
      rfl

/-! USD conversion: PriceMonitor.js convertToUSD (lines 1893-1924) and the
pairIsAgent flag assigned by buildTokenConfig (lines 647-698). -/

structure PMPoolConfig where
  pair : String
  pairAddress : Option String
  pairIsAgent : Bool
  deriving DecidableEq, Repr

structure PMPool where
  config : PMPoolConfig
  token0 : String
  token1 : String
  deriving DecidableEq, Repr

/-- PriceMonitor.js buildTokenConfig line 648: a pair symbol outside the five
listed stables is an agent pair. -/
def buildTokenConfigPairIsAgent (pair : String) : Bool :=
  !(["WBNB", "USDC", "USDT", "BUSD", "DAI"].contains pair)

/-- PriceMonitor.js convertToUSD (lines 1893-1924): a WBNB pair multiplies by
the BNB reference (lines 1900-1902); a pair named USDC, USDT or DAI passes
through as USD (lines 1903-1905); an agent pair resolves the pair price
recursively (line 1907, empty call stack) and multiplies only a positive
result in (lines 1909-1911); anything else, which includes BUSD, keeps the
zero initializers of lines 1897-1898. -/
def convertToUSD (env : AgentEnv) (priceInPair : ℚ) (pool : PMPool)
    (isToken0 : Bool) : ℚ × ℚ :=
  let pairAddress :=
    pool.config.pairAddress.getD (if isToken0 then pool.token1 else pool.token0)
  let pairSymbol := pool.config.pair
  if pairSymbol = "WBNB" then
    (priceInPair * env.bnbPrice, priceInPair)
  else if pairSymbol = "USDC" ∨ pairSymbol = "USDT" ∨ pairSymbol = "DAI" then
    (priceInPair, priceInPair / env.bnbPrice)
  else if pool.config.pairIsAgent then
    let agentPriceUSD := getAgentTokenPrice env pairAddress []
    if 0 < agentPriceUSD then
      (priceInPair * agentPriceUSD, priceInPair * agentPriceUSD / env.bnbPrice)
    else (0, 0)
  else (0, 0)

/-- Environment with an empty agent registry and the default BNB reference of
tokens.config.js line 18. -/
def stableEnv : AgentEnv :=
  { agentTokens := [], agentPriceCache := [], bnbPrice := 600,
    poolPrice := fun _ _ => 0 }

/-- A pool as buildTokenConfig produces it for a BUSD pair (BUSD address from
tokens.config.js line 10). -/
def busdPoolConfig : PMPoolConfig :=
  { pair := "BUSD"
    pairAddress := some "0xe9e7cea3dedca5984780bafc599bd69add087d56"
    pairIsAgent := buildTokenConfigPairIsAgent "BUSD" }

def busdPool : PMPool :=
  { config := busdPoolConfig
    token0 := "0xtoken"
    token1 := "0xe9e7cea3dedca5984780bafc599bd69add087d56" }

/-- The same pool shape for a USDT pair (USDT address from tokens.config.js
line 9). -/
def usdtPoolConfig : PMPoolConfig :=
  { pair := "USDT"
    pairAddress := some "0x55d398326f99059ff775485246999027b3197955"
    pairIsAgent := buildTokenConfigPairIsAgent "USDT" }

def usdtPool : PMPool :=
  { config := usdtPoolConfig
    token0 := "0xtoken"
    token1 := "0x55d398326f99059ff775485246999027b3197955" }

/-! Listener registry and token removal: PriceMonitor.js setupV2Listener
(lines 1206-1226) and its siblings (lines 1324-1342, 1412-1430, 1499-1517),
which all register under the key pool-token; removeDynamicToken (lines
2163-2216); LastPriceCache (lines 9-35); getTokenPrice (lines 2002-2014). -/

structure ListenerData where
  tokenAddress : String
  poolType : String
  deriving DecidableEq, Repr

/-- The listener registry key as every setup writes it (PriceMonitor.js lines
1152, 1219, 1337, 1425, 1512): lowercase pool address, a dash, lowercase
token address. -/
def listenerKey (poolAddress tokenAddress : String) : String :=
  lowerStr poolAddress ++ "-" ++ lowerStr tokenAddress

/-- The activeListeners entry setupV2Listener stores (lines 1219-1224): the
contract handle plus tokenAddress and poolType; no listener field is stored. -/
def v2ListenerEntry (poolAddress tokenAddress : String) : String × ListenerData :=
  (listenerKey poolAddress tokenAddress,
   { tokenAddress := lowerStr tokenAddress, poolType := "V2" })

structure PriceData where
  priceUSD : ℚ
  priceBNB : ℚ
  deriving DecidableEq, Repr

structure TokenData where
  lastPrice : Option PriceData
  pools : List String
  isDynamic : Bool
  deriving DecidableEq, Repr

structure PMState where
  monitoredTokens : List (String × TokenData)
  activeListeners : List (String × ListenerData)
  poolContracts : List String
  priceCache : List (String × PriceData)
  swapListeners : List (String × String)
  mempoolPools : List String
  deriving DecidableEq, Repr

/-- LastPriceCache.get (PriceMonitor.js lines 21-23): look up the lowercased
key, null when absent. -/
def lastPriceCacheGet (cache : List (String × PriceData)) (tokenAddress : String) :
    Option PriceData :=
  cache.lookup (lowerStr tokenAddress)

/-- The methods the LastPriceCache class defines (PriceMonitor.js lines 9-35):
set, get, getAll, clear, and nothing else. -/
def lastPriceCacheMethods : List String := ["set", "get", "getAll", "clear"]

inductive JsOutcome where
  | ok (value : Bool)
  | typeError (msg : String)
  deriving DecidableEq, Repr

/-- Map.delete on an association list. -/
def mapDelete {α : Type} (m : List (String × α)) (k : String) : List (String × α) :=
  m.filter (fun e => e.1 != k)

/-- PriceMonitor.js removeDynamicToken (lines 2163-2216). The listener sweep
(lines 2176-2189) deletes every entry whose key starts with key ++ ":"; the
mempool pools (lines 2191-2198; removeMonitoredPool lowercases its key) and
the pool contracts (lines 2200-2207, raw key) are dropped per pool; the token
is removed from monitoredTokens (line 2210); line 2211 then invokes
this.priceCache.delete, a method the LastPriceCache class does not define, so
the call raises a TypeError there and the remaining deletions (lines
2211-2212) never execute. -/
def removeDynamicToken (st : PMState) (tokenAddress : String) :
    JsOutcome × PMState :=
  let key := lowerStr tokenAddress
  match st.monitoredTokens.lookup key with
  | none => (.ok false, st)
  | some tokenData =>
    let st1 := { st with
      activeListeners := st.activeListeners.filter
        (fun e => !(strStartsWith e.1 (key ++ ":"))) }
    let st2 := { st1 with
      mempoolPools := tokenData.pools.foldl
        (fun acc p => acc.filter (fun q => q != lowerStr p)) st1.mempoolPools }
    let st3 := { st2 with
      poolContracts := tokenData.pools.foldl
        (fun acc p => acc.filter (fun q => q != p)) st2.poolContracts }
    let st4 := { st3 with monitoredTokens := mapDelete st3.monitoredTokens key }
    if lastPriceCacheMethods.contains "delete" then
      let st5 := { st4 with
        priceCache := mapDelete st4.priceCache key,
        swapListeners := mapDelete st4.swapListeners key }
      (.ok true, st5)
    else
      (.typeError "this.priceCache.delete is not a function", st4)

/-- Model of the external ethers.getAddress called by the fallback lookup of
getTokenPrice (PriceMonitor.js line 2012): getAddress normalizes an address
to its EIP-55 checksummed, mixed-case form. ethers is a third-party
dependency, so only the behavior needed here is modelled: the USDT address,
whose checksummed form is written literally in tokens.config.js line 9, maps
from any casing to that checksummed form; every other string passes
through. -/
def ethersGetAddress (a : String) : String :=
  if lowerStr a = "0x55d398326f99059ff775485246999027b3197955" then
    "0x55d398326f99059fF775485246999027B3197955"
  else a

/-- PriceMonitor.js getTokenPrice (lines 2002-2014): try the price cache
(lowercased key), then fall back to monitoredTokens keyed by
ethers.getAddress(tokenAddress); the metrics counters are not modelled. -/
def getTokenPrice (getAddress : String → String) (st : PMState)
    (tokenAddress : String) : Option PriceData :=
  match lastPriceCacheGet st.priceCache tokenAddress with
  | some cached => some cached
  | none =>
    match st.monitoredTokens.lookup (getAddress tokenAddress) with
    | some d => d.lastPrice
    | none => none

/-- The fallback lookup as the specification words it (address-key invariant:
reading any address-keyed map uses the lowercase form), for comparison with
getTokenPrice, whose fallback keys by ethers.getAddress. -/
def getTokenPriceLowercaseFallback (st : PMState) (tokenAddress : String) :
    Option PriceData :=
  match lastPriceCacheGet st.priceCache tokenAddress with
  | some cached => some cached
  | none =>
    match st.monitoredTokens.lookup (lowerStr tokenAddress) with
    | some d => d.lastPrice
    | none => none

/-- Fixture for C2: the dynamic token 0xaaa with one V2 pool 0xbbb and a live
listener registered under the key 0xbbb-0xaaa. -/
def pdC2 : PriceData := { priceUSD := 6, priceBNB := 1 / 100 }

def tokenDataC2 : TokenData :=
  { lastPrice := some pdC2, pools := ["0xbbb"], isDynamic := true }

def stC2 : PMState :=
  { monitoredTokens := [("0xaaa", tokenDataC2)]
    activeListeners := [v2ListenerEntry "0xbbb" "0xaaa"]
    poolContracts := ["0xbbb"]
    priceCache := [("0xaaa", pdC2)]
    swapListeners := []
    mempoolPools := ["0xbbb"] }

/-- Fixture for C3: the dynamic token 0xccc, cached and monitored. -/
def pdC3 : PriceData := { priceUSD := 42, priceBNB := 7 / 100 }

def tokenDataC3 : TokenData :=
  { lastPrice := some pdC3, pools := ["0xddd"], isDynamic := true }

def stC3 : PMState :=
  { monitoredTokens := [("0xccc", tokenDataC3)]
    activeListeners := [v2ListenerEntry "0xddd" "0xccc"]
    poolContracts := ["0xddd"]
    priceCache := [("0xccc", pdC3)]
    swapListeners := []
    mempoolPools := ["0xddd"] }

/-- Fixture for C4: USDT monitored under its lowercase key, with a stored last
price and an empty price cache. -/
def pdC4 : PriceData := { priceUSD := 1, priceBNB := 1 / 600 }

def tokenDataC4 : TokenData :=
  { lastPrice := some pdC4, pools := [], isDynamic := true }

def stC4 : PMState :=
  { monitoredTokens := [("0x55d398326f99059ff775485246999027b3197955", tokenDataC4)]
    activeListeners := []
    poolContracts := []
    priceCache := []
    swapListeners := []
    mempoolPools := [] }

/-! Mempool pending-transaction handling: MempoolMonitor.js,
handlePendingTransaction (lines 165-219), getPoolConfigForTx (lines 224-237),
decodeSwapTransaction (lines 242-283), decodeV2DirectSwap (lines 288-312),
emitPendingSwap (lines 317-343). The provider RPC getTransaction and the ABI
decode of ethers.Interface.parseTransaction are oracle parameters; timers,
metrics and the background confirmation watcher (waitForConfirmation) are not
modelled. -/

/-- JavaScript String.prototype.slice(0, n) on our inputs, on the character
list so the kernel can evaluate it. -/
def strTake (s : String) (n : ℕ) : String := String.mk (s.data.take n)

/-- A value delivered on the pending-transaction channel: a proper string, or
any non-string value (block headers and other provider garbage), carried with
its JavaScript string form. -/
inductive PendingChannelValue where
  | jsString (s : String)
  | nonString (stringForm : String)
  deriving DecidableEq, Repr

def stringFormOf : PendingChannelValue → String
  | .jsString s => s
  | .nonString f => f

structure MempoolTx where
  toAddr : Option String
  fromAddr : String
  data : String
  deriving DecidableEq, Repr

structure MempoolPoolConfig where
  tokenAddress : String
  poolAddress : String
  protocol : String
  userAddress : Option String
  isToken0 : Option Bool
  deriving DecidableEq, Repr

structure PendingSwapData where
  tokenAddress : String
  poolAddress : String
  protocol : String
  userAddress : String
  operation : String
  methodId : String
  deriving DecidableEq, Repr

structure MempoolState where
  pendingSwaps : List (String × PendingSwapData)
  monitoredPools : List (String × MempoolPoolConfig)
  deriving DecidableEq, Repr

/-- MempoolMonitor.js SWAP_SIGNATURES (lines 29-50). -/
def SWAP_SIGNATURES : List (String × String) :=
  [("swapExactTokensForTokens", "0x38ed1739"),
   ("swapTokensForExactTokens", "0x8803dbee"),
   ("swapExactETHForTokens", "0x7ff36ab5"),
   ("swapTokensForExactETH", "0x4a25d94a"),
   ("swapExactTokensForETH", "0x18cbafe5"),
   ("swapETHForExactTokens", "0xfb3bdb41"),
   ("exactInputSingle", "0x414bf389"),
   ("exactOutputSingle", "0xdb3e2198"),
   ("exactInput", "0xc04b8d59"),
   ("exactOutput", "0xf28c0498"),
   ("execute", "0x3593564c"),
   ("swap", "0x022c0d9f"),
   ("swapV3", "0x128acb08")]

/-- MempoolMonitor.js getPoolConfigForTx (lines 224-237): null when the
transaction has no to-address, else look the lowercased to-address up among
the monitored pools. -/
def getPoolConfigForTx (st : MempoolState) (tx : MempoolTx) :
    Option MempoolPoolConfig :=
  match tx.toAddr with
  | none => none
  | some t => st.monitoredPools.lookup (lowerStr t)

/-- MempoolMonitor.js decodeV2DirectSwap (lines 288-312); the ABI decode of
the swap calldata is the oracle argument, none modelling a parse failure,
which the source turns into unknown in its catch. isToken0 defaults to token0
unless the config says false (line 302). -/
def decodeV2DirectSwap (abiArgs : Option (ℤ × ℤ)) (cfg : MempoolPoolConfig) :
    String :=
  match abiArgs with
  | none => "unknown"
  | some (amount0Out, amount1Out) =>
    let isToken0 : Bool := cfg.isToken0 != some false
    if isToken0 then (if 0 < amount0Out then "buy" else "sell")
    else (if 0 < amount1Out then "buy" else "sell")

/-- MempoolMonitor.js decodeSwapTransaction (lines 242-283): reject short
calldata, take the lowercased first ten characters as the method id, classify
V2 pool-direct swaps through decodeV2DirectSwap, V3 pool-direct and router
selectors as unknown, anything else as null. -/
def decodeSwapTransaction (abiDecodeV2Swap : String → Option (ℤ × ℤ))
    (tx : MempoolTx) (cfg : MempoolPoolConfig) : Option PendingSwapData :=
  if tx.data.length < 10 then none
  else
    let methodId := lowerStr (strTake tx.data 10)
    let operation : Option String :=
      if methodId = "0x022c0d9f" then
        some (decodeV2DirectSwap (abiDecodeV2Swap tx.data) cfg)
      else if methodId = "0x128acb08" then some "unknown"
      else if (SWAP_SIGNATURES.map Prod.snd).contains methodId then some "unknown"
      else none
    match operation with
    | none => none
    | some op =>
      some { tokenAddress := cfg.tokenAddress
             poolAddress := cfg.poolAddress
             protocol := cfg.protocol
             userAddress := tx.fromAddr
             operation := op
             methodId := methodId }

inductive MempoolEmission where
  | pendingSwap (txHash : String) (payload : PendingSwapData)
  deriving DecidableEq, Repr

/-- MempoolMonitor.js emitPendingSwap (lines 317-343): emit swap:pending only
when the downstream client is connected. -/
def emitPendingSwap (swapClientConnected : Bool) (txHash : String)
    (payload : PendingSwapData) : List MempoolEmission :=
  if swapClientConnected then [.pendingSwap txHash payload] else []

/-- MempoolMonitor.js handlePendingTransaction (lines 165-219): the guard of
line 168 silently drops every value that is not a string, does not start with
0x, or is not exactly 66 characters long; already-tracked hashes, missing
transactions, unmonitored pools, undecodable swaps and user-filter misses all
return without change; otherwise the swap is tracked as pending and a pending
event is emitted. The body sits inside try/catch (lines 166, 214-218), so no
input tears the subscription down; the model is a total function. -/
def handlePendingTransaction (getTransaction : String → Option MempoolTx)
    (abiDecodeV2Swap : String → Option (ℤ × ℤ)) (swapClientConnected : Bool)
    (st : MempoolState) (v : PendingChannelValue) :
    MempoolState × List MempoolEmission :=
  match v with
  | .nonString _ => (st, [])
  | .jsString txHash =>
    if !(strStartsWith txHash "0x") || txHash.length != 66 then (st, [])
    else if (st.pendingSwaps.lookup txHash).isSome then (st, [])
    else
      match getTransaction txHash with
      | none => (st, [])
      | some tx =>
        match getPoolConfigForTx st tx with
        | none => (st, [])
        | some cfg =>
          match decodeSwapTransaction abiDecodeV2Swap tx cfg with
          | none => (st, [])
          | some swapData =>
            match cfg.userAddress with
            | some target =>
              if lowerStr tx.fromAddr ≠ lowerStr target then (st, [])
              else
                ({ st with pendingSwaps := st.pendingSwaps ++ [(txHash, swapData)] },
                 emitPendingSwap swapClientConnected txHash swapData)
            | none =>
              ({ st with pendingSwaps := st.pendingSwaps ++ [(txHash, swapData)] },
               emitPendingSwap swapClientConnected txHash swapData)

def emptyMempoolState : MempoolState :=
  { pendingSwaps := [], monitoredPools := [] }

/-- Concrete cyclic registry exercising the cycle guard: agent token A prices
through pair B and agent token B prices through pair A (scenario 3 of the
spec). -/
def cycleConfigA : AgentConfig :=
  { symbol := "AAA"
    priceSources :=
      [{ address := "0xpoolab", type := "V2", pair := "BBB", pairAddress := "0xbbb" }] }

def cycleConfigB : AgentConfig :=
  { symbol := "BBB"
    priceSources :=
      [{ address := "0xpoolab", type := "V2", pair := "AAA", pairAddress := "0xaaa" }] }

def cycleEnv : AgentEnv :=
  { agentTokens := [("0xaaa", cycleConfigA), ("0xbbb", cycleConfigB)]
    agentPriceCache := []
    bnbPrice := 600
    poolPrice := fun _ _ => 1 }

end BscPulse

namespace BscPulse

theorem posStep_mem {x r : ℚ} {acc : List ℚ}
    (hr : r ∈ if 0 < x then acc ++ [x] else acc) (hacc : ∀ q ∈ acc, 0 < q) :
    0 < r := by
  split at hr
  · rcases List.mem_append.mp hr with h | h
    · exact hacc r h
    · rename_i hpos
      rw [List.mem_singleton] at h
      rw [h]
      exact hpos
  · exact hacc r hr

theorem agentPriceSamples_pos (env : AgentEnv) (agentAddress : String)
    (agentConfig : AgentConfig) (stack : List String) :
    ∀ q ∈ agentPriceSamples env agentAddress agentConfig stack, 0 < q := by
  have hstep : ∀ (l : List AgentSource) (acc : List ℚ), (∀ q ∈ acc, 0 < q) →
      ∀ q ∈ l.foldl (fun acc source =>
        let poolPrice := env.poolPrice source.address agentAddress
        let converted :=
          if source.pair = "WBNB" then poolPrice * env.bnbPrice
          else if source.pair = "USDC" ∨ source.pair = "USDT" ∨
              source.pair = "DAI" ∨ source.pair = "BUSD" then poolPrice
          else
            let nested := getAgentTokenPrice env source.pairAddress stack
            if 0 < nested then poolPrice * nested else poolPrice
        if 0 < converted then acc ++ [converted] else acc) acc, 0 < q := by
    intro l
    induction l with
    | nil =>
      intro acc hacc q hq
      rw [List.foldl_nil] at hq
      exact hacc q hq
    | cons hd tl ih =>
      intro acc hacc q hq
      rw [List.foldl_cons] at hq
      refine ih _ ?_ q hq
      intro r hr
      dsimp only at hr
      exact posStep_mem hr hacc
  intro q hq
  refine hstep agentConfig.priceSources [] ?_ q ?_
  · intro r hr
    simp at hr
  · simpa [agentPriceSamples] using hq

/-- Claim C5: for every non-empty price sequence P, removeOutliers returns a
subsequence of P; when the length is at most 2 it returns P itself; when longer,
either the two-sigma filter emptied and P is returned, or every retained sample p
satisfies abs (p - mean P) <= 2 * sqrt (variance P); the output is never empty. -/
theorem C5_removeOutliers_spec (P : List ℚ) (hne : P ≠ []) :
    (removeOutliers P).Sublist P ∧
    (P.length ≤ 2 → removeOutliers P = P) ∧
    (2 < P.length →
      (P.filter (outlierKeep P) = [] ∧ removeOutliers P = P) ∨
      (∀ p ∈ removeOutliers P,
        |(p : ℝ) - (priceMean P : ℝ)| ≤ 2 * Real.sqrt (priceVariance P : ℝ))) ∧
    removeOutliers P ≠ [] := by
  refine ⟨?_, ?_, ?_, ?_⟩
  · unfold removeOutliers
    split
    · exact List.Sublist.refl P
    · split
      · exact List.Sublist.refl P
      · exact List.filter_sublist P
  · intro h
    simp [removeOutliers, h]
  · intro h
    unfold removeOutliers
    rw [if_neg (by omega)]
    split
    · exact Or.inl ⟨by assumption, rfl⟩
    · refine Or.inr ?_
      intro p hp
      have hmem := List.mem_filter.mp hp
      have hq : (p - priceMean P) ^ 2 ≤ 4 * priceVariance P := by
        have := hmem.2
        simpa [outlierKeep] using this
      have hR : ((p : ℝ) - (priceMean P : ℝ)) ^ 2 ≤ 4 * (priceVariance P : ℝ) := by
        exact_mod_cast hq
      have habs : |(p : ℝ) - (priceMean P : ℝ)| =
          Real.sqrt (((p : ℝ) - (priceMean P : ℝ)) ^ 2) :=
        (Real.sqrt_sq_eq_abs _).symm
      rw [habs]
      calc Real.sqrt (((p : ℝ) - (priceMean P : ℝ)) ^ 2)
          ≤ Real.sqrt (4 * (priceVariance P : ℝ)) := Real.sqrt_le_sqrt hR
        _ = 2 * Real.sqrt (priceVariance P : ℝ) := by
            rw [show (4 : ℝ) = 2 ^ 2 by norm_num,
              Real.sqrt_mul (by positivity) (priceVariance P : ℝ),
              Real.sqrt_sq (by norm_num)]
  · unfold removeOutliers
    split
    · exact hne
    · split
      · exact hne
      · assumption

/-- Witness for C5 at the concrete sequence [100, 101, 99, 100, 5000] of the
specification (scenario 4). -/
theorem C5_removeOutliers_spec_witness :
    ([(100 : ℚ), 101, 99, 100, 5000] ≠ []) ∧
    ((removeOutliers [(100 : ℚ), 101, 99, 100, 5000]).Sublist
        [(100 : ℚ), 101, 99, 100, 5000] ∧
      (([(100 : ℚ), 101, 99, 100, 5000] : List ℚ).length ≤ 2 →
        removeOutliers [(100 : ℚ), 101, 99, 100, 5000] =
          [(100 : ℚ), 101, 99, 100, 5000]) ∧
      (2 < ([(100 : ℚ), 101, 99, 100, 5000] : List ℚ).length →
        (([(100 : ℚ), 101, 99, 100, 5000] : List ℚ).filter
            (outlierKeep [(100 : ℚ), 101, 99, 100, 5000]) = [] ∧
          removeOutliers [(100 : ℚ), 101, 99, 100, 5000] =
            [(100 : ℚ), 101, 99, 100, 5000]) ∨
        (∀ p ∈ removeOutliers [(100 : ℚ), 101, 99, 100, 5000],
          |(p : ℝ) - (priceMean [(100 : ℚ), 101, 99, 100, 5000] : ℝ)| ≤
            2 * Real.sqrt (priceVariance [(100 : ℚ), 101, 99, 100, 5000] : ℝ))) ∧
      removeOutliers [(100 : ℚ), 101, 99, 100, 5000] ≠ []) :=
  ⟨by decide, C5_removeOutliers_spec [(100 : ℚ), 101, 99, 100, 5000] (by decide)⟩

/-- Claim C8: for every V3 swap log with signed amounts and every monitored side,
isBuy holds iff the monitored-side amount is strictly negative, and the reported
token and pair amounts are the absolute values of the monitored-side and
pair-side amounts. -/
theorem C8_parseV3SwapInfo_sign (amount0 amount1 : ℤ) (isToken0 : Bool) :
    ((parseV3SwapInfo amount0 amount1 isToken0).isBuy = true ↔
      (if isToken0 then amount0 else amount1) < 0) ∧
    (parseV3SwapInfo amount0 amount1 isToken0).tokenAmountRaw =
      |if isToken0 then amount0 else amount1| ∧
    (parseV3SwapInfo amount0 amount1 isToken0).pairAmountRaw =
      |if isToken0 then amount1 else amount0| := by
  have habs : ∀ a : ℤ, (if a < 0 then -a else a) = |a| := by
    intro a
    split
    · rw [abs_of_neg]; assumption
    · rw [abs_of_nonneg]; omega
  cases isToken0 <;> simp [parseV3SwapInfo, habs]

/-- Claim C10: every broadcastPrice invocation emits the price both to the
token room as price-update and, with the identical payload, to every connected
session as global-price-update. -/
theorem C10_broadcastPrice_global_emit {α : Type} (tokenAddress : String) (update : α) :
    ∃ e ∈ broadcastPrice tokenAddress update,
      e.target = EmitTarget.global ∧ e.eventName = "global-price-update" ∧
      e.payload = update ∧
      ∃ f ∈ broadcastPrice tokenAddress update,
        f.target = EmitTarget.room ("token:" ++ lowerStr tokenAddress) ∧
        f.eventName = "price-update" ∧ f.payload = e.payload := by
  refine ⟨{ target := .global, eventName := "global-price-update", payload := update },
    by simp [broadcastPrice], rfl, rfl, rfl,
    { target := .room ("token:" ++ lowerStr tokenAddress), eventName := "price-update",
      payload := update }, by simp [broadcastPrice], rfl, rfl, rfl⟩

/-- Claim C6: on every non-coalesced price update the cache is set to the new
price unconditionally, a broadcast happens iff the old price was zero or the
relative change reaches the threshold, and when no broadcast happens lastPrice
is unchanged and nothing is emitted. The old price is nonnegative (prices are
built from positive samples or default to zero). -/
theorem C6_broadcast_threshold_gate (tokenAddress : String) (threshold : ℚ)
    (lastPriceUSD : Option ℚ) (newPriceUSD : ℚ)
    (hnn : 0 ≤ lastPriceUSD.getD 0) :
    (handlePriceUpdate tokenAddress threshold lastPriceUSD newPriceUSD).cachedPriceUSD
        = newPriceUSD ∧
    ((handlePriceUpdate tokenAddress threshold lastPriceUSD newPriceUSD).broadcast = true ↔
      (lastPriceUSD.getD 0 = 0 ∨
        threshold ≤ |(newPriceUSD - lastPriceUSD.getD 0) / lastPriceUSD.getD 0|)) ∧
    ((handlePriceUpdate tokenAddress threshold lastPriceUSD newPriceUSD).broadcast = false →
      (handlePriceUpdate tokenAddress threshold lastPriceUSD newPriceUSD).lastPriceAfter
          = lastPriceUSD ∧
      (handlePriceUpdate tokenAddress threshold lastPriceUSD newPriceUSD).emissions = []) := by
  refine ⟨rfl, ?_, ?_⟩
  · rcases lt_or_eq_of_le hnn with hpos | hzero
    · simp only [handlePriceUpdate, if_pos hpos, Bool.or_eq_true, decide_eq_true_eq]
      constructor
      · rintro (hth | h0)
        · exact Or.inr hth
        · exact absurd h0 (ne_of_gt hpos)
      · rintro (h0 | hth)
        · exact absurd h0 (ne_of_gt hpos)
        · exact Or.inl hth
    · simp [handlePriceUpdate, ← hzero]
  · intro hb
    simp only [handlePriceUpdate] at hb ⊢
    simp [hb]

/-- Witness for C6 at threshold = priceUpdateThreshold (the configured default
0.001), old price 1, new price 2. -/
theorem C6_broadcast_threshold_gate_witness :
    (0 ≤ (some (1 : ℚ)).getD 0) ∧
    ((handlePriceUpdate "0xtoken" priceUpdateThreshold (some 1) 2).cachedPriceUSD = 2 ∧
    ((handlePriceUpdate "0xtoken" priceUpdateThreshold (some 1) 2).broadcast = true ↔
      ((some (1 : ℚ)).getD 0 = 0 ∨
        priceUpdateThreshold ≤ |((2 : ℚ) - (some (1 : ℚ)).getD 0) / (some (1 : ℚ)).getD 0|)) ∧
    ((handlePriceUpdate "0xtoken" priceUpdateThreshold (some 1) 2).broadcast = false →
      (handlePriceUpdate "0xtoken" priceUpdateThreshold (some 1) 2).lastPriceAfter = some 1 ∧
      (handlePriceUpdate "0xtoken" priceUpdateThreshold (some 1) 2).emissions = [])) :=
  ⟨by decide, C6_broadcast_threshold_gate "0xtoken" priceUpdateThreshold (some 1) 2 (by decide)⟩

/-- Claim C7: the agent-price recursion terminates even on a cyclic pairAddress
graph (getAgentTokenPrice and calculateAgentTokenPrice are total functions of a
well-founded recursion, measured by agentMeasure), a branch that re-enters an
address already on the call stack returns 0 from either entry point, and such a
zero contributes nothing to the average: only strictly positive converted
prices are ever collected into the sample list that is averaged. -/
theorem C7_agent_cycle_safe (env : AgentEnv) (agentAddress : String)
    (agentConfig : AgentConfig) (callStack : List String)
    (hcycle : agentAddress ∈ callStack) :
    getAgentTokenPrice env agentAddress callStack = 0 ∧
    calculateAgentTokenPrice env agentAddress agentConfig callStack = 0 ∧
    ∀ stack q, q ∈ agentPriceSamples env agentAddress agentConfig stack → 0 < q := by
  refine ⟨?_, ?_,
    fun stack q hq => agentPriceSamples_pos env agentAddress agentConfig stack q hq⟩
  · rw [getAgentTokenPrice_unfold]
    by_cases h0 : agentAddress = ""
    · rw [if_pos h0]
    · rw [if_neg h0, if_pos hcycle]
  · rw [calculateAgentTokenPrice, if_pos hcycle]

/-- Witness for C7 on the concrete two-token cycle A -> B -> A (scenario 3 of
the spec), with A already on the call stack. -/
theorem C7_agent_cycle_safe_witness :
    ("0xaaa" ∈ ["0xaaa"]) ∧
    (getAgentTokenPrice cycleEnv "0xaaa" ["0xaaa"] = 0 ∧
     calculateAgentTokenPrice cycleEnv "0xaaa" cycleConfigA ["0xaaa"] = 0 ∧
     ∀ stack q, q ∈ agentPriceSamples cycleEnv "0xaaa" cycleConfigA stack → 0 < q) :=
  ⟨by decide, C7_agent_cycle_safe cycleEnv "0xaaa" cycleConfigA ["0xaaa"] (by decide)⟩

/-- Claim C1 (code bug): buildTokenConfig classifies BUSD as a non-agent
stable, yet the stable branch of convertToUSD tests only USDC, USDT and DAI,
so a BUSD-paired pool falls into the unknown-pair branch and returns
priceUSD = 0 and priceBNB = 0 instead of priceUSD = priceInPair; the sibling
USDT pool converts exactly as the claim states. -/
theorem C1_convertToUSD_busd_yields_zero :
    buildTokenConfigPairIsAgent "BUSD" = false ∧
    convertToUSD stableEnv 1 busdPool true = (0, 0) ∧
    convertToUSD stableEnv 1 usdtPool true = (1, 1 / 600) :=
  ⟨rfl, rfl, rfl⟩

/-- Claim C2 (code bug): every listener is registered under the key
pool-token (dash separator, lowercase pool address first), but the removal
sweep of removeDynamicToken matches keys starting with token ++ ":", so for a
monitored token with a live V2 listener the sweep removes nothing: the
registry entry, and with it the chain subscription, survives the removal (the
call then also aborts with the TypeError of the missing cache delete, so it
never returns true). -/
theorem C2_removeDynamicToken_listener_sweep_no_op :
    (removeDynamicToken stC2 "0xaaa").2.activeListeners =
      [v2ListenerEntry "0xbbb" "0xaaa"] ∧
    strStartsWith (listenerKey "0xbbb" "0xaaa") ("0xaaa" ++ ":") = false ∧
    (removeDynamicToken stC2 "0xaaa").1 =
      .typeError "this.priceCache.delete is not a function" := by
  decide

/-- Claim C3 (code bug): when the room empties and removeDynamicToken fires
for a cached dynamic token, the cache eviction calls the nonexistent
LastPriceCache.delete and raises a TypeError; the cache entry survives, and a
subsequent getTokenPrice returns the stale cached price instead of null. -/
theorem C3_removeDynamicToken_cache_evict_throws :
    (removeDynamicToken stC3 "0xccc").1 =
      .typeError "this.priceCache.delete is not a function" ∧
    lastPriceCacheGet (removeDynamicToken stC3 "0xccc").2.priceCache "0xccc" =
      some pdC3 ∧
    getTokenPrice ethersGetAddress (removeDynamicToken stC3 "0xccc").2 "0xccc" =
      some pdC3 :=
  ⟨rfl, rfl, rfl⟩

/-- Claim C4 (code bug): monitoredTokens is keyed by lowercase addresses
(addTokenWithConfig, PriceMonitor.js line 703), but the fallback lookup of
getTokenPrice keys by ethers.getAddress, the EIP-55 mixed-case form, so
querying the checksummed USDT address with an empty price cache misses the
monitored entry and returns null, whereas the lowercase-keyed lookup the
specification requires finds it. -/
theorem C4_getTokenPrice_fallback_checksum_miss :
    getTokenPrice ethersGetAddress stC4
      "0x55d398326f99059fF775485246999027B3197955" = none ∧
    getTokenPriceLowercaseFallback stC4
      "0x55d398326f99059fF775485246999027B3197955" = some pdC4 ∧
    ethersGetAddress "0x55d398326f99059fF775485246999027B3197955" ≠
      lowerStr "0x55d398326f99059fF775485246999027B3197955" :=
  ⟨rfl, rfl, by decide⟩

/-- Claim C9: every pending-channel value whose string form is not a
0x-prefixed string of exactly 66 characters (block-header objects and other
non-string garbage included) is dropped by the handler: the state is
unchanged and nothing is emitted, for every provider oracle and connection
state; the handler is a total function, so no such input can throw or tear
the subscription down. -/
theorem C9_mempool_garbage_dropped (getTransaction : String → Option MempoolTx)
    (abiDecodeV2Swap : String → Option (ℤ × ℤ)) (swapClientConnected : Bool)
    (st : MempoolState) (v : PendingChannelValue)
    (hbad : ¬ (strStartsWith (stringFormOf v) "0x" = true ∧
               (stringFormOf v).length = 66)) :
    handlePendingTransaction getTransaction abiDecodeV2Swap swapClientConnected
      st v = (st, []) := by
  cases v with
  | nonString f => rfl
  | jsString s =>
    have hguard : (!(strStartsWith s "0x") || s.length != 66) = true := by
      cases hpre : strStartsWith s "0x" with
      | false => simp
      | true =>
        have hlen : s.length ≠ 66 := fun h => hbad ⟨hpre, h⟩
        simp [hlen]
    simp [handlePendingTransaction, hguard]

/-- Witness for C9 at the concrete non-string garbage value a provider sends
when it delivers a block header on the channel. -/
theorem C9_mempool_garbage_dropped_witness :
    (¬ (strStartsWith (stringFormOf (.nonString "[object Object]")) "0x" = true ∧
        (stringFormOf (PendingChannelValue.nonString "[object Object]")).length = 66)) ∧
    handlePendingTransaction (fun _ => none) (fun _ => none) true
      emptyMempoolState (.nonString "[object Object]") = (emptyMempoolState, []) :=
  ⟨by decide,
   C9_mempool_garbage_dropped (fun _ => none) (fun _ => none) true
     emptyMempoolState (.nonString "[object Object]") (by decide)⟩

end BscPulse
